import Mathlib

/-!
Shallow embedding of `src/main.py` (a minimal asynchronous JSON-RPC /
server-sent-events relay) and verification of its specification claims.

JSON values are modelled by the inductive `Json` (numbers as `Int`); the
two process-wide registries (`pending_requests`, `subscriptions`) form the
`ServerState` record; the HTTP handler `jsonrpc_endpoint` becomes a pure
function from the parsed request body (modelled as `none` for a missing or
unparsable body, or a JSON object given as an association list), the
`X-Client-ID` header, the freshly generated UUID string (uuid4 output is
an environment input) and the pre-state, to a response plus post-state plus
the list of background jobs spawned.  The background worker `process_add`
becomes a state transformer returning `none` when the Python thread would
die with an uncaught `TypeError`/`KeyError`.
-/

/-- JSON values; numbers are modelled as integers. -/
inductive Json where
  | null : Json
  | bool : Bool → Json
  | num : Int → Json
  | str : String → Json
  | arr : List Json → Json
  | obj : List (String × Json) → Json
deriving Repr

/-- First-match association-list lookup, modelling Python `dict` lookup
(parsed JSON dictionaries have unique keys, so first match is the match). -/
def lookupJ {α : Type} : List (String × α) → String → Option α
  | [], _ => none
  | (k, v) :: rest, key => if k = key then some v else lookupJ rest key

/-- The two module-level registries of `main.py`:
`pending_requests` maps a generated request id to the owning client id,
`subscriptions` maps a client id to its ordered queue of
`(event_type, data)` pairs. -/
structure ServerState where
  pending_requests : List (String × String)
  subscriptions : List (String × List (String × Json))
deriving Repr

/-- `init_subscriptions` (lines 148-153): at startup both registries are
empty (`subscriptions.clear()`; `pending_requests` starts as `{}`). -/
def init_state : ServerState := ⟨[], []⟩

/-- `notify_client` (lines 35-39): appends `(event_type, data)` to the
client's queue only when `client_id in subscriptions`; otherwise the event
is silently dropped. -/
def notify_client (client_id : String) (event_type : String) (data : Json)
    (st : ServerState) : ServerState :=
  { st with
    subscriptions := st.subscriptions.map (fun p =>
      if p.1 = client_id then (p.1, p.2 ++ [(event_type, data)]) else p) }

/-- The cleanup block of `process_add` (lines 56-58):
`if request_id in pending_requests: del pending_requests[request_id]`. -/
def cleanup_pending (request_id : String) (st : ServerState) : ServerState :=
  if st.pending_requests.any (fun p => p.1 = request_id) then
    { st with pending_requests :=
        st.pending_requests.filter (fun p => ¬ p.1 = request_id) }
  else st

/-- Python subscript `v[key]` with a string key: defined for dictionaries
(raising `KeyError`, i.e. `none`, when absent), a `TypeError` (`none`) for
every other JSON value. -/
def pyIndex : Json → String → Option Json
  | .obj kvs, k => lookupJ kvs k
  | _, _ => none

/-- Python `+` restricted to JSON values: numeric addition (with `bool`
coerced to 0/1 as Python does), string and list concatenation; every other
combination raises `TypeError` (`none`). -/
def pyAdd : Json → Json → Option Json
  | .num a, .num b => some (.num (a + b))
  | .num a, .bool b => some (.num (a + (if b then 1 else 0)))
  | .bool a, .num b => some (.num ((if a then 1 else 0) + b))
  | .bool a, .bool b => some (.num ((if a then 1 else 0) + (if b then 1 else 0)))
  | .str a, .str b => some (.str (a ++ b))
  | .arr a, .arr b => some (.arr (a ++ b))
  | _, _ => none

/-- `process_add` (lines 41-58): after the simulated delay it computes
`params['a'] + params['b']`, enqueues the `result` event for the owning
client and removes the pending record.  `none` models the thread dying
with an uncaught exception before mutating any state (the subscript or the
addition raised). -/
def process_add (request_id : String) (params : Json) (client_id : String)
    (st : ServerState) : Option ServerState :=
  match pyIndex params "a", pyIndex params "b" with
  | some va, some vb =>
    match pyAdd va vb with
    | some result =>
        some (cleanup_pending request_id
          (notify_client client_id "result"
            (.obj [("jsonrpc", .str "2.0"), ("id", .str request_id),
                   ("result", result)]) st))
    | none => none
  | _, _ => none

/-- The connection setup of `generate_sse` (lines 16-19): under the lock it
evaluates `queue = subscriptions.get(client_id, [])` and nothing else — a
pure read.  When the client is absent the default `[]` is a fresh local
list, not stored in the registry, so the registry is returned unchanged. -/
def generate_sse_start (client_id : String) (st : ServerState) :
    List (String × Json) × ServerState :=
  ((lookupJ st.subscriptions client_id).getD [], st)

/-- Substring test on strings, modelling Python `sub in s` for strings. -/
def strContainsSub (pat s : String) : Bool :=
  go pat.toList s.toList
where
  go : List Char → List Char → Bool
    | pat, [] => pat.isEmpty
    | pat, c :: rest => pat.isPrefixOf (c :: rest) || go pat rest

/-- Python `key in container` for a string key: key membership for a
dictionary, substring for a string, element equality for a list; a
`TypeError` (`none`) for every other JSON value. -/
def pyContains : Json → String → Option Bool
  | .obj kvs, k => some (kvs.any (fun p => p.1 = k))
  | .str s, k => some (strContainsSub k s)
  | .arr xs, k => some (xs.any (fun v => match v with | .str t => t = k | _ => false))
  | _, _ => none

/-- The envelope test of lines 65: the guard
`not data or 'jsonrpc' not in data or data['jsonrpc'] != '2.0'` fails
(i.e. the envelope is accepted) exactly when the body is a JSON object
whose `jsonrpc` entry is the string `"2.0"` (an empty object is falsy but
also lacks the key, so the two collapse). -/
def checkEnvelope (data : Option (List (String × Json))) : Bool :=
  match data with
  | none => false
  | some kvs =>
    match lookupJ kvs "jsonrpc" with
    | some (.str s) => s = "2.0"
    | _ => false

/-- Python `method == name` where `method = data.get('method')`: true only
when the entry is present and is exactly the string `name`. -/
def isMethod (m : Option Json) (name : String) : Bool :=
  match m with
  | some (.str s) => s = name
  | _ => false

/-- Python falsiness of the `X-Client-ID` header value: absent or empty. -/
def clientIdMissing (client_id : Option String) : Bool :=
  match client_id with
  | none => true
  | some s => s = ""

/-- The common error envelope of lines 66-70, 78-82, 112-116, 141-145. -/
def errBody (code : Int) (msg : String) (id : Json) : Json :=
  .obj [("jsonrpc", .str "2.0"),
        ("error", .obj [("code", .num code), ("message", .str msg)]),
        ("id", id)]

/-- The static `mcp_discover` result (lines 89-105). -/
def discover_result : Json :=
  .obj [("methods", .arr
    [.obj [("name", .str "mcp_discover"),
           ("description", .str "List available methods"),
           ("parameters", .arr [])],
     .obj [("name", .str "add"),
           ("description", .str "Add two numbers"),
           ("parameters", .arr
             [.obj [("name", .str "a"), ("type", .str "number")],
              .obj [("name", .str "b"), ("type", .str "number")]])]])]

/-- Python dict assignment `m[k] = v`: overwrite in place if present,
otherwise append. -/
def insertKey (m : List (String × String)) (k v : String) :
    List (String × String) :=
  if m.any (fun p => p.1 = k) then
    m.map (fun p => if p.1 = k then (k, v) else p)
  else m ++ [(k, v)]

/-- An HTTP response of the endpoint: a JSON body with a status code, or
an unhandled Python exception (HTTP 500 from Flask). -/
inductive RpcResp where
  | json : Json → Nat → RpcResp
  | typeError : RpcResp
deriving Repr

/-- The arguments of a `threading.Thread(target=process_add, args=...)`
spawned by the endpoint (lines 123-128). -/
structure SpawnedJob where
  request_id : String
  params : Json
  client_id : String
deriving Repr

/-- Everything observable about one call of the endpoint: the synchronous
response, the post-state of the registries, and the background jobs
started. -/
structure RpcOutcome where
  resp : RpcResp
  state : ServerState
  spawned : List SpawnedJob
deriving Repr

/-- `jsonrpc_endpoint` (lines 60-145).  `data` is `request.json` (a JSON
object or `none`), `client_id` the `X-Client-ID` header, `fresh_uuid` the
value of `str(uuid.uuid4())` drawn in the `add` branch (an input, since
uuid generation is environmental randomness). -/
def jsonrpc_endpoint (data : Option (List (String × Json)))
    (client_id : Option String) (fresh_uuid : String) (st : ServerState) :
    RpcOutcome :=
  if ¬ checkEnvelope data then
    ⟨.json (errBody (-32600) "Invalid Request" .null) 400, st, []⟩
  else
    let kvs := data.getD []
    let method := lookupJ kvs "method"
    let req_id := (lookupJ kvs "id").getD .null
    if ¬ isMethod method "mcp_discover" ∧ clientIdMissing client_id then
      ⟨.json (errBody (-32600) "Missing X-Client-ID header" req_id) 400, st, []⟩
    else if isMethod method "mcp_discover" then
      ⟨.json (.obj [("jsonrpc", .str "2.0"), ("id", req_id),
                    ("result", discover_result)]) 200, st, []⟩
    else if isMethod method "add" then
      let params := (lookupJ kvs "params").getD (.obj [])
      match pyContains params "a", pyContains params "b" with
      | some ha, some hb =>
        if ¬ ha ∨ ¬ hb then
          ⟨.json (errBody (-32602) "Invalid parameters" req_id) 400, st, []⟩
        else
          let cid := client_id.getD ""
          ⟨.json (.obj [("jsonrpc", .str "2.0"), ("id", req_id),
                        ("result", .obj [("status", .str "pending"),
                                         ("requestId", .str fresh_uuid)])]) 200,
           { st with pending_requests := insertKey st.pending_requests fresh_uuid cid },
           [⟨fresh_uuid, params, cid⟩]⟩
      | _, _ => ⟨.typeError, st, []⟩
    else
      ⟨.json (errBody (-32601) "Method not found" req_id) 404, st, []⟩

/-- The numeric `code` carried inside a response body's `error` object. -/
def errCode (body : Json) : Option Int :=
  match pyIndex body "error" with
  | some e =>
    match pyIndex e "code" with
    | some (.num c) => some c
    | _ => none
  | none => none

/-- Whether a body has the error envelope shape
`{jsonrpc: "2.0", error: {code, message}, id}` with a numeric code and a
string message. -/
def isErrorEnvelope (body : Json) : Bool :=
  (match pyIndex body "jsonrpc" with | some (.str s) => s = "2.0" | _ => false)
  && (match pyIndex body "error" with
      | some (.obj e) =>
        (match lookupJ e "code" with | some (.num _) => true | _ => false)
        && (match lookupJ e "message" with | some (.str _) => true | _ => false)
      | _ => false)
  && (match body with | .obj kvs => kvs.any (fun p => p.1 = "id") | _ => false)

/-- Whether a response is a 200 JSON success. -/
def RpcResp.isSuccess : RpcResp → Bool
  | .json _ s => s = 200
  | .typeError => false

/-- Observe, through the `Option` of a possibly-crashed executor, the
queue a client holds in the post-state. -/
def subsAfter (r : Option ServerState) (c : String) :
    Option (Option (List (String × Json))) :=
  r.map (fun s => lookupJ s.subscriptions c)

/-- The `result` member of a response's JSON body, when the response is a
JSON success or error body at all. -/
def respResult (o : RpcOutcome) : Option Json :=
  match o.resp with
  | .json body _ => pyIndex body "result"
  | .typeError => none

/-- One interleaving step on a single client's queue: an executor append
(`subscriptions[client_id].append(...)`, line 39) or one iteration of the
`generate_sse` loop (lines 20-25): `queue.pop(0)` and emit when the queue
is nonempty, sleep (no state change) otherwise. -/
inductive SseOp where
  | enqueue : (String × Json) → SseOp
  | drain : SseOp

/-- Run a list of interleaved operations on a pair
(pending queue, events emitted so far). -/
def runOps : List SseOp → List (String × Json) × List (String × Json) →
    List (String × Json) × List (String × Json)
  | [], s => s
  | .enqueue e :: rest, (q, out) => runOps rest (q ++ [e], out)
  | .drain :: rest, (q, out) =>
    match q with
    | [] => runOps rest ([], out)
    | e :: q2 => runOps rest (q2, out ++ [e])

/-- The events enqueued by a list of operations, in operation order. -/
def enqueuesOf : List SseOp → List (String × Json)
  | [] => []
  | .enqueue e :: rest => e :: enqueuesOf rest
  | .drain :: rest => enqueuesOf rest

lemma lookupJ_eq_none_iff {α : Type} (l : List (String × α)) (k : String) :
    lookupJ l k = none ↔ ∀ p ∈ l, ¬ p.1 = k := by
  induction l with
  | nil => simp [lookupJ]
  | cons hd tl ih =>
    by_cases h : hd.1 = k
    · simp [lookupJ, h]
    · simp [lookupJ, h, ih]

lemma any_key_eq_isSome {α : Type} (l : List (String × α)) (k : String) :
    l.any (fun p => p.1 = k) = (lookupJ l k).isSome := by
  induction l with
  | nil => simp [lookupJ]
  | cons hd tl ih =>
    by_cases h : hd.1 = k
    · simp [lookupJ, h]
    · simp [lookupJ, h, ih]

lemma lookupJ_cons {α : Type} (k : String) (v : α) (rest : List (String × α))
    (key : String) :
    lookupJ ((k, v) :: rest) key = if k = key then some v else lookupJ rest key :=
  rfl

lemma lookupJ_mapUpdate {α : Type} (c : String) (f : α → α) :
    ∀ (l : List (String × α)) (c' : String),
      lookupJ (l.map (fun p => if p.1 = c then (p.1, f p.2) else p)) c' =
        if c' = c then Option.map f (lookupJ l c') else lookupJ l c'
  | [], c' => by by_cases h : c' = c <;> simp [lookupJ, h]
  | (k, v) :: tl, c' => by
    have ih := lookupJ_mapUpdate c f tl c'
    by_cases h1 : k = c
    · subst h1
      by_cases h2 : c' = k
      · subst h2
        simp [lookupJ_cons, ih]
      · have h2' : ¬ k = c' := Ne.symm h2
        simp [lookupJ_cons, h2, h2', ih]
    · by_cases h2 : c' = k
      · subst h2
        simp [lookupJ_cons, h1, ih]
      · have h2' : ¬ k = c' := Ne.symm h2
        simp [lookupJ_cons, h1, h2, h2', ih]

lemma lookupJ_filter_ne_self {α : Type} (l : List (String × α)) (k : String) :
    lookupJ (l.filter (fun p => ¬ p.1 = k)) k = none := by
  induction l with
  | nil => simp [lookupJ]
  | cons hd tl ih =>
    by_cases h : hd.1 = k
    · simpa [List.filter, h] using ih
    · simpa [List.filter, h, lookupJ] using ih

lemma cleanup_pending_subscriptions (k : String) (st : ServerState) :
    (cleanup_pending k st).subscriptions = st.subscriptions := by
  unfold cleanup_pending
  split <;> rfl

lemma lookupJ_cleanup_pending_self (k : String) (st : ServerState) :
    lookupJ (cleanup_pending k st).pending_requests k = none := by
  unfold cleanup_pending
  split
  · exact lookupJ_filter_ne_self _ _
  · next h =>
    rw [← Option.not_isSome_iff_eq_none, ← any_key_eq_isSome]
    simpa using h

lemma cleanup_pending_absent (k : String) (st : ServerState)
    (h : lookupJ st.pending_requests k = none) : cleanup_pending k st = st := by
  unfold cleanup_pending
  rw [if_neg]
  rw [any_key_eq_isSome, h]
  simp

lemma notify_client_lookup_eq (c t : String) (d : Json) (st : ServerState) :
    lookupJ (notify_client c t d st).subscriptions c =
      Option.map (fun q => q ++ [(t, d)]) (lookupJ st.subscriptions c) := by
  have h := lookupJ_mapUpdate c (fun q => q ++ [(t, d)]) st.subscriptions c
  rw [if_pos rfl] at h
  exact h

lemma notify_client_lookup_ne (c c' t : String) (d : Json) (st : ServerState)
    (h : ¬ c' = c) :
    lookupJ (notify_client c t d st).subscriptions c' =
      lookupJ st.subscriptions c' := by
  have h2 := lookupJ_mapUpdate c (fun q => q ++ [(t, d)]) st.subscriptions c'
  rw [if_neg h] at h2
  exact h2

lemma map_update_id {α : Type} (c : String) (f : α → α) :
    ∀ l : List (String × α), (∀ p ∈ l, ¬ p.1 = c) →
      l.map (fun p => if p.1 = c then (p.1, f p.2) else p) = l
  | [], _ => rfl
  | hd :: tl, h => by
    have h1 : ¬ hd.1 = c := h hd (by simp)
    have ih := map_update_id c f tl (fun p hp => h p (by simp [hp]))
    simp only [List.map_cons, if_neg h1, ih]

lemma notify_client_absent (c t : String) (d : Json) (st : ServerState)
    (h : lookupJ st.subscriptions c = none) : notify_client c t d st = st := by
  rw [lookupJ_eq_none_iff] at h
  have hmap := map_update_id c (fun q => q ++ [(t, d)]) st.subscriptions h
  unfold notify_client
  rw [hmap]

lemma notify_client_pending (c t : String) (d : Json) (st : ServerState) :
    (notify_client c t d st).pending_requests = st.pending_requests := rfl

lemma process_add_eq (u : String) (p : Json) (c : String) (st : ServerState)
    (va vb r : Json) (ha : pyIndex p "a" = some va) (hb : pyIndex p "b" = some vb)
    (hr : pyAdd va vb = some r) :
    process_add u p c st = some (cleanup_pending u (notify_client c "result"
      (.obj [("jsonrpc", .str "2.0"), ("id", .str u), ("result", r)]) st)) := by
  unfold process_add
  rw [ha, hb]
  dsimp only
  rw [hr]

lemma process_add_some (u : String) (p : Json) (c : String) (st st' : ServerState)
    (h : process_add u p c st = some st') :
    ∃ ev : Json, st' = cleanup_pending u (notify_client c "result" ev st) := by
  unfold process_add at h
  split at h
  · split at h
    · exact ⟨_, (Option.some_inj.mp h).symm⟩
    · simp at h
  · simp at h

lemma isMethod_eq (kvs : List (String × Json)) (name : String)
    (h : isMethod (lookupJ kvs "method") name = true) :
    lookupJ kvs "method" = some (.str name) := by
  unfold isMethod at h
  split at h
  next s heq =>
    simp at h
    subst h
    exact heq
  next => simp at h

lemma jsonrpc_add_accepted (kvs : List (String × Json))
    (p : List (String × Json)) (cid u : String) (st : ServerState)
    (h1 : checkEnvelope (some kvs) = true)
    (h2 : isMethod (lookupJ kvs "method") "add" = true)
    (h3 : lookupJ kvs "params" = some (.obj p))
    (h4 : (lookupJ p "a").isSome = true)
    (h5 : (lookupJ p "b").isSome = true)
    (h6 : ¬ cid = "") :
    jsonrpc_endpoint (some kvs) (some cid) u st =
      ⟨.json (.obj [("jsonrpc", .str "2.0"),
                    ("id", (lookupJ kvs "id").getD .null),
                    ("result", .obj [("status", .str "pending"),
                                     ("requestId", .str u)])]) 200,
       { st with pending_requests := insertKey st.pending_requests u cid },
       [⟨u, .obj p, cid⟩]⟩ := by
  have hla := (any_key_eq_isSome p "a").trans h4
  have hlb := (any_key_eq_isSome p "b").trans h5
  have hm := isMethod_eq kvs "add" h2
  simp only [jsonrpc_endpoint, h1, hm, h3, Option.getD_some, isMethod,
    clientIdMissing, pyContains, hla, hlb, h6]
  simp

lemma jsonrpc_endpoint_no_side_effects (data : Option (List (String × Json)))
    (client_id : Option String) (u : String) (st : ServerState) :
    (jsonrpc_endpoint data client_id u st).resp.isSuccess = true ∨
      ((jsonrpc_endpoint data client_id u st).state = st ∧
       (jsonrpc_endpoint data client_id u st).spawned = []) := by
  simp only [jsonrpc_endpoint]
  split
  · exact Or.inr ⟨rfl, rfl⟩
  · split
    · exact Or.inr ⟨rfl, rfl⟩
    · split
      · exact Or.inl rfl
      · split
        · split
          · split
            · exact Or.inr ⟨rfl, rfl⟩
            · exact Or.inl rfl
          · exact Or.inr ⟨rfl, rfl⟩
        · exact Or.inr ⟨rfl, rfl⟩

lemma isErrorEnvelope_errBody (code : Int) (msg : String) (id : Json) :
    isErrorEnvelope (errBody code msg id) = true := by
  simp [isErrorEnvelope, errBody, pyIndex, lookupJ_cons, lookupJ]

lemma jsonrpc_endpoint_error_shape (data : Option (List (String × Json)))
    (client_id : Option String) (u : String) (st : ServerState)
    (body : Json) (s : Nat)
    (h : (jsonrpc_endpoint data client_id u st).resp = .json body s)
    (hs : ¬ s = 200) :
    isErrorEnvelope body = true := by
  simp only [jsonrpc_endpoint] at h
  split at h
  · obtain ⟨hb, _⟩ := RpcResp.json.inj h
    exact hb ▸ isErrorEnvelope_errBody _ _ _
  · split at h
    · obtain ⟨hb, _⟩ := RpcResp.json.inj h
      exact hb ▸ isErrorEnvelope_errBody _ _ _
    · split at h
      · obtain ⟨_, hn⟩ := RpcResp.json.inj h
        exact absurd hn.symm hs
      · split at h
        · split at h
          · split at h
            · obtain ⟨hb, _⟩ := RpcResp.json.inj h
              exact hb ▸ isErrorEnvelope_errBody _ _ _
            · obtain ⟨_, hn⟩ := RpcResp.json.inj h
              exact absurd hn.symm hs
          · simp at h
        · obtain ⟨hb, _⟩ := RpcResp.json.inj h
          exact hb ▸ isErrorEnvelope_errBody _ _ _

lemma jsonrpc_invalid_envelope (data : Option (List (String × Json)))
    (client_id : Option String) (u : String) (st : ServerState)
    (h : checkEnvelope data = false) :
    jsonrpc_endpoint data client_id u st =
      ⟨.json (errBody (-32600) "Invalid Request" .null) 400, st, []⟩ := by
  simp [jsonrpc_endpoint, h]

/-- C1 (counterexample): for the concrete `add` submission by client `abc`
with client-chosen JSON-RPC id `1`, params `a = 2, b = 3`, generated uuid
`"u-1"`, and `abc` holding a registered (empty) queue, the spawned job is
passed the generated uuid, and the `result` event the executor enqueues
for `abc` carries `id = "u-1"` (the internal tracking identifier), which
differs from the original client-supplied id `1`. -/
theorem add_result_event_id_counterexample :
    (jsonrpc_endpoint (some [("jsonrpc", Json.str "2.0"),
        ("method", Json.str "add"), ("id", Json.num 1),
        ("params", Json.obj [("a", Json.num 2), ("b", Json.num 3)])])
      (some "abc") "u-1" (⟨[], [("abc", [])]⟩ : ServerState)).spawned =
      [⟨"u-1", Json.obj [("a", Json.num 2), ("b", Json.num 3)], "abc"⟩] ∧
    subsAfter (process_add "u-1"
        (Json.obj [("a", Json.num 2), ("b", Json.num 3)]) "abc"
        (⟨[], [("abc", [])]⟩ : ServerState)) "abc" =
      some (some [("result", Json.obj [("jsonrpc", Json.str "2.0"),
        ("id", Json.str "u-1"), ("result", Json.num 5)])]) ∧
    Json.str "u-1" ≠ Json.num 1 := by
  refine ⟨rfl, rfl, ?_⟩
  simp

/-- C1 (amended): for every accepted `add` job with numeric params `a` and
`b` submitted by a client `cid` that holds a registered queue `q`, the
spawned executor receives the generated uuid `u`, and the `result` event
appended to `cid`'s queue has payload
`{jsonrpc: "2.0", id: u, result: a + b}` — the `id` field equals the
internally generated tracking identifier, not the client-chosen request
id, and the `result` field equals the sum `a + b`. -/
theorem add_result_event_payload (kvs p : List (String × Json))
    (cid u : String) (st st1 : ServerState) (a b : Int)
    (q : List (String × Json))
    (h1 : checkEnvelope (some kvs) = true)
    (h2 : isMethod (lookupJ kvs "method") "add" = true)
    (h3 : lookupJ kvs "params" = some (.obj p))
    (h4 : lookupJ p "a" = some (.num a))
    (h5 : lookupJ p "b" = some (.num b))
    (h6 : ¬ cid = "")
    (hq : lookupJ st1.subscriptions cid = some q) :
    (jsonrpc_endpoint (some kvs) (some cid) u st).spawned = [⟨u, .obj p, cid⟩] ∧
    subsAfter (process_add u (.obj p) cid st1) cid =
      some (some (q ++ [("result", .obj [("jsonrpc", .str "2.0"),
        ("id", .str u), ("result", .num (a + b))])])) := by
  constructor
  · rw [jsonrpc_add_accepted kvs p cid u st h1 h2 h3
      (by rw [h4]; rfl) (by rw [h5]; rfl) h6]
  · rw [process_add_eq u (.obj p) cid st1 (.num a) (.num b) (.num (a + b))
      h4 h5 rfl]
    unfold subsAfter
    rw [Option.map_some']
    rw [cleanup_pending_subscriptions]
    rw [notify_client_lookup_eq]
    rw [hq]
    rfl

/-- C1 (witness): the amended statement at the concrete submission of
`a = 2, b = 3` by registered client `abc` with generated uuid `"u-9"`. -/
theorem add_result_event_payload_witness :
    (jsonrpc_endpoint (some [("jsonrpc", Json.str "2.0"),
        ("method", Json.str "add"), ("id", Json.num 1),
        ("params", Json.obj [("a", Json.num 2), ("b", Json.num 3)])])
      (some "abc") "u-9" init_state).spawned =
      [⟨"u-9", Json.obj [("a", Json.num 2), ("b", Json.num 3)], "abc"⟩] ∧
    subsAfter (process_add "u-9"
        (Json.obj [("a", Json.num 2), ("b", Json.num 3)]) "abc"
        (⟨[("u-9", "abc")], [("abc", [])]⟩ : ServerState)) "abc" =
      some (some [("result", Json.obj [("jsonrpc", Json.str "2.0"),
        ("id", Json.str "u-9"), ("result", Json.num 5)])]) :=
  add_result_event_payload
    [("jsonrpc", Json.str "2.0"), ("method", Json.str "add"),
     ("id", Json.num 1), ("params", Json.obj [("a", Json.num 2), ("b", Json.num 3)])]
    [("a", Json.num 2), ("b", Json.num 3)] "abc" "u-9" init_state
    (⟨[("u-9", "abc")], [("abc", [])]⟩ : ServerState) 2 3 []
    (by rfl) (by rfl) (by rfl) (by rfl) (by rfl) (by decide) (by rfl)

/-- C2 (counterexample): for the concrete valid `add` submission with
generated uuid `"u-1"`, the synchronous response's `result` object is
`{status: "pending", requestId: "u-1"}`; it has no `jobId` member at all,
so the tracking identifier is not returned under the key `jobId`. -/
theorem pending_ack_jobId_counterexample :
    respResult (jsonrpc_endpoint (some [("jsonrpc", Json.str "2.0"),
        ("method", Json.str "add"), ("id", Json.num 1),
        ("params", Json.obj [("a", Json.num 2), ("b", Json.num 3)])])
      (some "abc") "u-1" init_state) =
      some (Json.obj [("status", Json.str "pending"),
                      ("requestId", Json.str "u-1")]) ∧
    pyIndex (Json.obj [("status", Json.str "pending"),
                       ("requestId", Json.str "u-1")]) "jobId" = none :=
  ⟨rfl, rfl⟩

/-- C2 (amended): for every valid `add` submission the synchronous
response's `result` object is exactly `{status: "pending", requestId}`
with the generated tracking identifier under the key `requestId`, and two
submissions for which the uuid generator produced distinct identifiers
receive distinct result objects. -/
theorem pending_ack_requestId_unique (kvs p : List (String × Json))
    (cid u1 u2 : String) (st1 st2 : ServerState)
    (h1 : checkEnvelope (some kvs) = true)
    (h2 : isMethod (lookupJ kvs "method") "add" = true)
    (h3 : lookupJ kvs "params" = some (.obj p))
    (h4 : (lookupJ p "a").isSome = true)
    (h5 : (lookupJ p "b").isSome = true)
    (h6 : ¬ cid = "")
    (hu : ¬ u1 = u2) :
    respResult (jsonrpc_endpoint (some kvs) (some cid) u1 st1) =
      some (.obj [("status", .str "pending"), ("requestId", .str u1)]) ∧
    respResult (jsonrpc_endpoint (some kvs) (some cid) u2 st2) =
      some (.obj [("status", .str "pending"), ("requestId", .str u2)]) ∧
    respResult (jsonrpc_endpoint (some kvs) (some cid) u1 st1) ≠
      respResult (jsonrpc_endpoint (some kvs) (some cid) u2 st2) := by
  rw [jsonrpc_add_accepted kvs p cid u1 st1 h1 h2 h3 h4 h5 h6,
      jsonrpc_add_accepted kvs p cid u2 st2 h1 h2 h3 h4 h5 h6]
  refine ⟨rfl, rfl, ?_⟩
  simp [respResult, pyIndex, lookupJ_cons, hu]

/-- C2 (witness): the amended statement at concrete submissions of the same
request with distinct generated uuids `"u-1"` and `"u-2"`. -/
theorem pending_ack_requestId_unique_witness :
    respResult (jsonrpc_endpoint (some [("jsonrpc", Json.str "2.0"),
        ("method", Json.str "add"), ("id", Json.num 1),
        ("params", Json.obj [("a", Json.num 2), ("b", Json.num 3)])])
      (some "abc") "u-1" init_state) =
      some (Json.obj [("status", Json.str "pending"),
                      ("requestId", Json.str "u-1")]) ∧
    respResult (jsonrpc_endpoint (some [("jsonrpc", Json.str "2.0"),
        ("method", Json.str "add"), ("id", Json.num 1),
        ("params", Json.obj [("a", Json.num 2), ("b", Json.num 3)])])
      (some "abc") "u-2" init_state) =
      some (Json.obj [("status", Json.str "pending"),
                      ("requestId", Json.str "u-2")]) ∧
    respResult (jsonrpc_endpoint (some [("jsonrpc", Json.str "2.0"),
        ("method", Json.str "add"), ("id", Json.num 1),
        ("params", Json.obj [("a", Json.num 2), ("b", Json.num 3)])])
      (some "abc") "u-1" init_state) ≠
      respResult (jsonrpc_endpoint (some [("jsonrpc", Json.str "2.0"),
        ("method", Json.str "add"), ("id", Json.num 1),
        ("params", Json.obj [("a", Json.num 2), ("b", Json.num 3)])])
      (some "abc") "u-2" init_state) :=
  pending_ack_requestId_unique
    [("jsonrpc", Json.str "2.0"), ("method", Json.str "add"),
     ("id", Json.num 1), ("params", Json.obj [("a", Json.num 2), ("b", Json.num 3)])]
    [("a", Json.num 2), ("b", Json.num 3)] "abc" "u-1" "u-2"
    init_state init_state
    (by rfl) (by rfl) (by rfl) (by rfl) (by rfl) (by decide) (by decide)

/-- C3 (code evaluated at the failing input): on a fresh server, client
`abc` opening its event stream leaves the subscriptions registry
unchanged — no queue is created for `abc` (the generator only reads
`subscriptions.get(client_id, [])`, nothing ever writes the registry) —
and a later `notify_client` for `abc` is therefore a dropped no-op, so the
completed job's `result` event is never recorded for delivery. -/
theorem sse_connect_no_registration :
    (generate_sse_start "abc" init_state).2 = init_state ∧
    lookupJ (generate_sse_start "abc" init_state).2.subscriptions "abc" = none ∧
    notify_client "abc" "result" (Json.obj [("jsonrpc", Json.str "2.0"),
        ("id", Json.str "u-1"), ("result", Json.num 5)])
      (generate_sse_start "abc" init_state).2 =
      (generate_sse_start "abc" init_state).2 :=
  ⟨rfl, rfl, rfl⟩

/-- C4: whenever the endpoint's synchronous response is not a 200 success
(invalid envelope, missing client id, invalid parameters, unknown method,
or an unhandled parameter type error), the registries are exactly the
pre-state and no background executor was spawned. -/
theorem sync_error_no_side_effects (data : Option (List (String × Json)))
    (client_id : Option String) (u : String) (st : ServerState)
    (h : (jsonrpc_endpoint data client_id u st).resp.isSuccess = false) :
    (jsonrpc_endpoint data client_id u st).state = st ∧
      (jsonrpc_endpoint data client_id u st).spawned = [] := by
  rcases jsonrpc_endpoint_no_side_effects data client_id u st with hs | hok
  · rw [hs] at h
    simp at h
  · exact hok

/-- C4 (witness): the statement at a concrete unknown-method request. -/
theorem sync_error_no_side_effects_witness :
    (jsonrpc_endpoint (some [("jsonrpc", Json.str "2.0"),
        ("method", Json.str "nope")]) (some "abc") "u-404" init_state).state =
      init_state ∧
    (jsonrpc_endpoint (some [("jsonrpc", Json.str "2.0"),
        ("method", Json.str "nope")]) (some "abc") "u-404" init_state).spawned =
      [] :=
  sync_error_no_side_effects
    (some [("jsonrpc", Json.str "2.0"), ("method", Json.str "nope")])
    (some "abc") "u-404" init_state (by rfl)

/-- C5: an executor run for a job owned by client `c` leaves every other
client's queue untouched: the `result` event is appended only to the
owner's queue (or dropped), never to another client's. -/
theorem result_event_only_owner (u : String) (p : Json) (c c' : String)
    (st st' : ServerState) (h1 : process_add u p c st = some st')
    (h2 : ¬ c' = c) :
    lookupJ st'.subscriptions c' = lookupJ st.subscriptions c' := by
  obtain ⟨ev, hev⟩ := process_add_some u p c st st' h1
  subst hev
  rw [cleanup_pending_subscriptions]
  exact notify_client_lookup_ne c c' "result" ev st h2

/-- C5 (witness): the statement at a concrete completed job owned by
`abc`, observing bystander client `xyz`. -/
theorem result_event_only_owner_witness :
    lookupJ (⟨[], [("abc", [("result", Json.obj [("jsonrpc", Json.str "2.0"),
        ("id", Json.str "u-1"), ("result", Json.num 5)])]), ("xyz", [])]⟩ :
        ServerState).subscriptions "xyz" =
      lookupJ (⟨[("u-1", "abc")], [("abc", []), ("xyz", [])]⟩ :
        ServerState).subscriptions "xyz" :=
  result_event_only_owner "u-1"
    (Json.obj [("a", Json.num 2), ("b", Json.num 3)]) "abc" "xyz"
    (⟨[("u-1", "abc")], [("abc", []), ("xyz", [])]⟩ : ServerState)
    (⟨[], [("abc", [("result", Json.obj [("jsonrpc", Json.str "2.0"),
        ("id", Json.str "u-1"), ("result", Json.num 5)])]), ("xyz", [])]⟩ :
        ServerState)
    (by rfl) (by decide)

/-- C6: a completed executor run leaves no record for its job id in the
pending-request registry, and removing an absent id (the cleanup block run
against a state not containing it) is a silent no-op that changes
nothing. -/
theorem executor_cleanup_idempotent (u : String) (p : Json) (c k : String)
    (st1 st2 st3 : ServerState)
    (h1 : process_add u p c st1 = some st2)
    (h2 : lookupJ st3.pending_requests k = none) :
    lookupJ st2.pending_requests u = none ∧ cleanup_pending k st3 = st3 := by
  obtain ⟨ev, hev⟩ := process_add_some u p c st1 st2 h1
  subst hev
  exact ⟨lookupJ_cleanup_pending_self u _, cleanup_pending_absent k st3 h2⟩

/-- C6 (witness): the statement at a concrete completed job `"u-1"` and a
second removal attempt of the absent id `"u-1"` on the resulting state. -/
theorem executor_cleanup_idempotent_witness :
    lookupJ (⟨[], []⟩ : ServerState).pending_requests "u-1" = none ∧
    cleanup_pending "u-1" (⟨[], []⟩ : ServerState) = (⟨[], []⟩ : ServerState) :=
  executor_cleanup_idempotent "u-1"
    (Json.obj [("a", Json.num 2), ("b", Json.num 3)]) "abc" "u-1"
    (⟨[("u-1", "abc")], []⟩ : ServerState) (⟨[], []⟩ : ServerState)
    (⟨[], []⟩ : ServerState) (by rfl) (by rfl)

/-- C7: a body that is missing, lacks the `jsonrpc` member, or carries a
`jsonrpc` value other than the string `"2.0"` receives the synchronous
invalid-request error `{jsonrpc: "2.0", error: {code: -32600, message:
"Invalid Request"}, id: null}` with HTTP 400; every non-200 JSON response
of the endpoint has the error envelope shape
`{jsonrpc: "2.0", error: {code, message}, id}`; and the numeric codes of
the invalid-request, invalid-parameters and method-not-found errors are
pairwise distinct. -/
theorem invalid_envelope_error_shape (data : Option (List (String × Json)))
    (cid : Option String) (u : String) (st : ServerState)
    (d2 : Option (List (String × Json))) (c2 : Option String) (u2 : String)
    (st2 : ServerState) (body : Json) (s : Nat)
    (h : checkEnvelope data = false)
    (h2 : (jsonrpc_endpoint d2 c2 u2 st2).resp = .json body s)
    (h3 : ¬ s = 200) :
    jsonrpc_endpoint data cid u st =
      ⟨.json (errBody (-32600) "Invalid Request" .null) 400, st, []⟩ ∧
    isErrorEnvelope body = true ∧
    errCode (errBody (-32600) "Invalid Request" .null) ≠
      errCode (errBody (-32602) "Invalid parameters" .null) ∧
    errCode (errBody (-32602) "Invalid parameters" .null) ≠
      errCode (errBody (-32601) "Method not found" .null) ∧
    errCode (errBody (-32600) "Invalid Request" .null) ≠
      errCode (errBody (-32601) "Method not found" .null) := by
  refine ⟨jsonrpc_invalid_envelope data cid u st h,
    jsonrpc_endpoint_error_shape d2 c2 u2 st2 body s h2 h3, ?_, ?_, ?_⟩ <;>
    decide

/-- C7 (witness): the statement at a concrete body missing `jsonrpc` and a
concrete method-not-found response as the non-200 response observed. -/
theorem invalid_envelope_error_shape_witness :
    jsonrpc_endpoint (some [("method", Json.str "add")]) (some "abc") "u-7"
      init_state =
      ⟨.json (errBody (-32600) "Invalid Request" .null) 400, init_state, []⟩ ∧
    isErrorEnvelope (errBody (-32601) "Method not found" Json.null) = true ∧
    errCode (errBody (-32600) "Invalid Request" .null) ≠
      errCode (errBody (-32602) "Invalid parameters" .null) ∧
    errCode (errBody (-32602) "Invalid parameters" .null) ≠
      errCode (errBody (-32601) "Method not found" .null) ∧
    errCode (errBody (-32600) "Invalid Request" .null) ≠
      errCode (errBody (-32601) "Method not found" .null) :=
  invalid_envelope_error_shape (some [("method", Json.str "add")])
    (some "abc") "u-7" init_state
    (some [("jsonrpc", Json.str "2.0"), ("method", Json.str "nope")])
    (some "abc") "u-8" init_state
    (errBody (-32601) "Method not found" Json.null) 404
    (by rfl) (by rfl) (by decide)

/-- C8: every well-formed `mcp_discover` request — with or without an
`X-Client-ID` header, in any registry state — returns HTTP 200 with the
one static method list `discover_result` (the two methods `mcp_discover`
and `add` and their parameter schemas), echoes the request id, leaves both
registries unchanged and spawns nothing, so any two calls return identical
result bodies modulo the echoed id. -/
theorem mcp_discover_static_pure (kvs : List (String × Json))
    (cid : Option String) (u : String) (st : ServerState)
    (h1 : checkEnvelope (some kvs) = true)
    (h2 : isMethod (lookupJ kvs "method") "mcp_discover" = true) :
    jsonrpc_endpoint (some kvs) cid u st =
      ⟨.json (.obj [("jsonrpc", .str "2.0"),
                    ("id", (lookupJ kvs "id").getD .null),
                    ("result", discover_result)]) 200, st, []⟩ := by
  have hm := isMethod_eq kvs "mcp_discover" h2
  simp only [jsonrpc_endpoint, Option.getD_some, h1, hm, isMethod,
    clientIdMissing]
  simp

/-- C8 (witness): the statement at a concrete discovery request with no
`X-Client-ID` header. -/
theorem mcp_discover_static_pure_witness :
    jsonrpc_endpoint (some [("jsonrpc", Json.str "2.0"),
        ("method", Json.str "mcp_discover"), ("id", Json.num 7)])
      none "u-0" init_state =
      ⟨.json (.obj [("jsonrpc", .str "2.0"),
                    ("id", (lookupJ [("jsonrpc", Json.str "2.0"),
                      ("method", Json.str "mcp_discover"),
                      ("id", Json.num 7)] "id").getD .null),
                    ("result", discover_result)]) 200, init_state, []⟩ :=
  mcp_discover_static_pure
    [("jsonrpc", Json.str "2.0"), ("method", Json.str "mcp_discover"),
     ("id", Json.num 7)] none "u-0" init_state (by rfl) (by rfl)

/-- C9: over any interleaving of executor enqueues and event-stream drain
steps on one client's queue, the events emitted so far followed by the
events still queued always equal the previously emitted and queued events
followed by the new enqueues in enqueue order — so events are emitted
strictly in FIFO order of their enqueueing. -/
theorem sse_fifo_delivery (ops : List SseOp) (q out : List (String × Json)) :
    (runOps ops (q, out)).2 ++ (runOps ops (q, out)).1 =
      out ++ q ++ enqueuesOf ops := by
  induction ops generalizing q out with
  | nil => simp [runOps, enqueuesOf]
  | cons op rest ih =>
    cases op with
    | enqueue e =>
      simp only [runOps, enqueuesOf]
      rw [ih]
      simp
    | drain =>
      cases q with
      | nil =>
        simp only [runOps, enqueuesOf]
        rw [ih]
      | cons e q2 =>
        simp only [runOps, enqueuesOf]
        rw [ih]
        simp

/-- C10: parameter validation for `add` checks key presence only: any
request whose params object contains the keys `a` and `b`, whatever the
JSON values stored there, is accepted — the response is the 200 pending
acknowledgment, the ownership record is inserted, and the executor is
spawned with the raw params. -/
theorem add_param_presence_only (kvs p : List (String × Json))
    (cid u : String) (st : ServerState)
    (h1 : checkEnvelope (some kvs) = true)
    (h2 : isMethod (lookupJ kvs "method") "add" = true)
    (h3 : lookupJ kvs "params" = some (.obj p))
    (h4 : (lookupJ p "a").isSome = true)
    (h5 : (lookupJ p "b").isSome = true)
    (h6 : ¬ cid = "") :
    jsonrpc_endpoint (some kvs) (some cid) u st =
      ⟨.json (.obj [("jsonrpc", .str "2.0"),
                    ("id", (lookupJ kvs "id").getD .null),
                    ("result", .obj [("status", .str "pending"),
                                     ("requestId", .str u)])]) 200,
       { st with pending_requests := insertKey st.pending_requests u cid },
       [⟨u, .obj p, cid⟩]⟩ :=
  jsonrpc_add_accepted kvs p cid u st h1 h2 h3 h4 h5 h6

/-- C10 (witness): the statement at a concrete request whose `a` is `null`
and whose `b` is the string `"x"` — still accepted as pending. -/
theorem add_param_presence_only_witness :
    jsonrpc_endpoint (some [("jsonrpc", Json.str "2.0"),
        ("method", Json.str "add"),
        ("params", Json.obj [("a", Json.null), ("b", Json.str "x")])])
      (some "abc") "u-5" init_state =
      ⟨.json (.obj [("jsonrpc", .str "2.0"),
                    ("id", (lookupJ [("jsonrpc", Json.str "2.0"),
                      ("method", Json.str "add"),
                      ("params", Json.obj [("a", Json.null),
                        ("b", Json.str "x")])] "id").getD .null),
                    ("result", .obj [("status", .str "pending"),
                                     ("requestId", .str "u-5")])]) 200,
       { init_state with pending_requests := insertKey init_state.pending_requests "u-5" "abc" },
       [⟨"u-5", Json.obj [("a", Json.null), ("b", Json.str "x")], "abc"⟩]⟩ :=
  add_param_presence_only
    [("jsonrpc", Json.str "2.0"), ("method", Json.str "add"),
     ("params", Json.obj [("a", Json.null), ("b", Json.str "x")])]
    [("a", Json.null), ("b", Json.str "x")] "abc" "u-5" init_state
    (by rfl) (by rfl) (by rfl) (by rfl) (by rfl) (by decide)
